import Mathlib

/-!
Shallow embedding of the ffaas execution core: the runtime worker
(`Runtime.Receive` / `Runtime.exec` in pkg/actrs/runtime.go), the per-request
host ABI object (`RequestModule`), and the ingress-side wire-request builder
(`MakeProtoRequest` / `trimmedEndpointFromURL` in internal/shared).

Modelling conventions:
- Go strings are `List Char`; byte slices are `List Nat` (a Go `nil` slice and
  an empty slice are both `[]`, matching their observable equality in the code).
- Go `uuid.UUID` (16 bytes) is `List Nat`.
- Fallible Go operations are `Option`/`Except`; a Go panic is surfaced as
  `none` (for pure helpers) or an explicit `panicked` action (for the actor
  handler).
- The side effects of the actor handler (`Receive`) are recorded as an ordered
  trace of `Action`s, in the order the corresponding Go statements execute.
-/

namespace FFaas

/-! ## Wire messages (proto.HTTPRequest / proto.HTTPResponse)

Field layout from the spec's wire contract; headers is a map from name to a
list of values (`proto.HeaderFields`), modelled as an association list since
the claims never depend on map lookup. -/

structure HeaderFields where
  fields : List (List Char)
  deriving Repr, DecidableEq

structure HTTPRequest where
  id : List Char
  endpointID : List Char
  method : List Char
  url : List Char
  header : List (List Char × HeaderFields)
  body : List Nat
  deriving Repr, DecidableEq

structure HTTPResponse where
  response : List Nat
  requestID : List Char
  statusCode : Nat
  deriving Repr, DecidableEq

/-! ## Store records (types.Endpoint / types.Deploy / types.RuntimeMetric) -/

abbrev UUID := List Nat

structure Endpoint where
  id : UUID
  activeDeployID : UUID
  environment : List (List Char × List Char)
  deriving Repr, DecidableEq

structure Deploy where
  id : UUID
  endpointID : UUID
  blob : List Nat
  deriving Repr, DecidableEq

structure RuntimeMetric where
  id : UUID
  startTime : Int
  duration : Int
  deployID : UUID
  endpointID : UUID
  requestURL : List Char
  deriving Repr, DecidableEq

/-! ## google/uuid `Parse` (and hence `MustParse`)

Faithful to google/uuid's `Parse`: a 36-char canonical form, a 45-char
`urn:uuid:` form (prefix compared case-insensitively; ASCII folding), a
38-char braced form (only the leading brace is skipped; `Parse` never checks
either brace character), and a 32-char dashless form.  `MustParse` panics
exactly when `Parse` errors, i.e. when this function returns `none`. -/

def xvalue (c : Char) : Option Nat :=
  if '0' ≤ c ∧ c ≤ '9' then some (c.toNat - '0'.toNat)
  else if 'a' ≤ c ∧ c ≤ 'f' then some (c.toNat - 'a'.toNat + 10)
  else if 'A' ≤ c ∧ c ≤ 'F' then some (c.toNat - 'A'.toNat + 10)
  else none

def xtob (c1 c2 : Char) : Option Nat := do
  let v1 ← xvalue c1
  let v2 ← xvalue c2
  pure (v1 * 16 + v2)

def hexPairAt (t : List Char) (i : Nat) : Option Nat := do
  let c1 ← t.get? i
  let c2 ← t.get? (i + 1)
  xtob c1 c2

/-- The start indices of the 16 hex byte pairs in a canonical 36-char UUID. -/
def uuidByteOffsets : List Nat := [0, 2, 4, 6, 9, 11, 14, 16, 19, 21, 24, 26, 28, 30, 32, 34]

/-- The dashed 36-char tail of `Parse`: dashes at 8, 13, 18, 23, then 16 hex
byte pairs.  Characters past index 35 are never examined (as in the Go code,
which is why the trailing brace of the 38-char form goes unchecked). -/
def parseUUIDBody (t : List Char) : Option UUID :=
  if t.get? 8 = some '-' ∧ t.get? 13 = some '-' ∧ t.get? 18 = some '-' ∧ t.get? 23 = some '-' then
    uuidByteOffsets.mapM (hexPairAt t)
  else none

/-- `strings.EqualFold` restricted to ASCII, as used on the `urn:uuid:` head. -/
def lowerEq (a b : List Char) : Bool :=
  a.map Char.toLower == b.map Char.toLower

def uuidParse (s : List Char) : Option UUID :=
  if s.length = 36 then parseUUIDBody s
  else if s.length = 45 then
    if lowerEq (s.take 9) ("urn:uuid:".toList) then parseUUIDBody (s.drop 9) else none
  else if s.length = 38 then parseUUIDBody (s.drop 1)
  else if s.length = 32 then (List.range 16).mapM (fun i => hexPairAt s (i * 2))
  else none

/-! ## Guest linear memory (wazero `api.Memory`)

`Read(offset, size)` yields the view when `offset+size` is in bounds and
reports failure otherwise; `Write(offset, bytes)` writes in place when the
span is in bounds and is a no-op (reporting failure) otherwise. -/

def memRead (mem : List Nat) (offset size : Nat) : Option (List Nat) :=
  if offset + size ≤ mem.length then some ((mem.drop offset).take size) else none

def memWrite (mem : List Nat) (offset : Nat) (bytes : List Nat) : List Nat :=
  if offset + bytes.length ≤ mem.length then
    mem.take offset ++ bytes ++ mem.drop (offset + bytes.length)
  else mem

/-! ## RequestModule (the per-request host ABI object) -/

structure RequestModule where
  requestBytes : List Nat
  responseBytes : List Nat
  deriving Repr, DecidableEq

/-- `NewRequestModule`: marshal the wire request into `requestBytes`;
`responseBytes` starts out nil.  The protobuf encoder is an external
library whose byte layout the claims never depend on, so it is passed in
as a parameter. -/
def newRequestModule (marshal : HTTPRequest → List Nat) (msg : HTTPRequest) : RequestModule :=
  { requestBytes := marshal msg, responseBytes := [] }

/-- `RequestModule.Close`: sets both buffers to nil. -/
def closeRequestModule (_r : RequestModule) : RequestModule :=
  { requestBytes := [], responseBytes := [] }

/-- One invocation of the exported `write_request(offset)` host function:
the host writes `requestBytes` into guest memory at `offset` (via
`module.Memory().Write`), returning the new guest memory. -/
def moduleWriteRequest (r : RequestModule) (mem : List Nat) (offset : Nat) : List Nat :=
  memWrite mem offset r.requestBytes

/-- One guest call to the exported `write_response(offset, size)` host
function, together with the guest memory at the moment of the call. -/
structure WRCall where
  mem : List Nat
  offset : Nat
  size : Nat
  deriving Repr, DecidableEq

/-- One invocation of `write_response`: the host reads `size` bytes of guest
memory at `offset` and stores them as `responseBytes`, overwriting whatever
was there.  The Go code discards the ok flag of `Memory().Read`, so a failed
read stores nil. -/
def moduleWriteResponseStep (r : RequestModule) (c : WRCall) : RequestModule :=
  { r with responseBytes := (memRead c.mem c.offset c.size).getD [] }

/-- The single guest startup argument list built in `Runtime.exec`:
`WithArgs(strconv.Itoa(len(httpmod.requestBytes)))`. -/
def guestArgs (r : RequestModule) : List (List Char) :=
  [(Nat.repr r.requestBytes.length).toList]

/-! ## Runtime.exec and Runtime.Receive

The WASM engine itself is external; what `exec` can do to the request module
is fully determined by whether compilation fails, whether WASI instantiation
fails, and otherwise by the sequence of `write_response` calls the guest makes
before finishing or trapping.  That choice is the `ExecBehavior` parameter. -/

inductive ExecBehavior
  | compileFailed
  | wasiInstantiateFailed
  | run (calls : List WRCall) (guestTrapped : Bool)
  deriving Repr, DecidableEq

inductive WarnKind
  | endpointNotFound
  | deployNotFound
  | noCacheHit
  | compileFailed
  | wasiInstantiateFailed
  | guestInstantiateFailed
  | metricCreateFailed
  deriving Repr, DecidableEq

/-- `Runtime.exec`: on compile failure or WASI-instantiation failure it warns
and returns with the module untouched; otherwise the guest's `write_response`
calls are applied in order, and a guest trap adds a warning (the bytes written
before the trap are kept). -/
def runExec (eb : ExecBehavior) (r : RequestModule) : RequestModule × List WarnKind :=
  match eb with
  | .compileFailed => (r, [.compileFailed])
  | .wasiInstantiateFailed => (r, [.wasiInstantiateFailed])
  | .run calls trapped =>
      (calls.foldl moduleWriteResponseStep r, if trapped then [.guestInstantiateFailed] else [])

/-- One observable step of the `Receive` handler, in program order. -/
inductive Action
  | logWarn (k : WarnKind)
  | respond (resp : HTTPResponse)
  | poison
  | emitMetric (m : RuntimeMetric)
  | cachePut (id : UUID)
  | panicked
  deriving Repr, DecidableEq

structure Store where
  getEndpoint : UUID → Except (List Char) Endpoint
  getDeploy : UUID → Except (List Char) Deploy

/-- The ambient inputs of one `Receive` invocation that the Go code draws from
its surroundings: the protobuf encoder, the guest's behaviour, whether the
module cache hits, whether the metric store errors, and the fresh metric id
and clock readings. -/
structure ExecEnv where
  marshal : HTTPRequest → List Nat
  execB : ExecBehavior
  cacheHit : Bool
  metricStoreFails : Bool
  metricID : UUID
  started : Int
  now : Int

/-- `Runtime.Receive` on a `*proto.HTTPRequest` message.  Returns the ordered
trace of observable actions and the final state of the request-module object
when one was constructed (the handler never calls `Close` on it).
Program order, as in the Go source: endpoint lookup, deploy lookup, module
construction, cache lookup (warn on miss), exec, respond, poison, metric
construction and emission (warn if the metric store fails), cache put. -/
def receive (env : ExecEnv) (store : Store) (msg : HTTPRequest) :
    List Action × Option RequestModule :=
  match uuidParse msg.endpointID with
  | none => ([.panicked], none)
  | some eid =>
    match store.getEndpoint eid with
    | .error _ => ([.logWarn .endpointNotFound], none)
    | .ok endpoint =>
      match store.getDeploy endpoint.activeDeployID with
      | .error _ => ([.logWarn .deployNotFound], none)
      | .ok deploy =>
        let httpmod := newRequestModule env.marshal msg
        let cacheWarn : List Action := if env.cacheHit then [] else [.logWarn .noCacheHit]
        let httpmod2 := (runExec env.execB httpmod).1
        let execWarns := (runExec env.execB httpmod).2
        let resp : HTTPResponse :=
          { response := httpmod2.responseBytes, requestID := msg.id, statusCode := 200 }
        let metric : RuntimeMetric :=
          { id := env.metricID, startTime := env.started, duration := env.now - env.started,
            deployID := deploy.id, endpointID := deploy.endpointID, requestURL := msg.url }
        let metricWarn : List Action :=
          if env.metricStoreFails then [.logWarn .metricCreateFailed] else []
        (cacheWarn ++ execWarns.map .logWarn ++
           [.respond resp, .poison, .emitMetric metric] ++ metricWarn ++
           [.cachePut endpoint.id],
         some httpmod2)

/-! ## Ingress-side wire-request construction (internal/shared) -/

/-- `strings.TrimPrefix(path, "/")`. -/
def trimSlash (s : List Char) : List Char :=
  match s with
  | '/' :: rest => rest
  | _ => s

/-- `strings.Split(s, sep)` for the single-character separator used here:
always at least one element; splitting the empty string yields `[[]]`. -/
def splitOnChar (c : Char) : List Char → List (List Char)
  | [] => [[]]
  | x :: xs =>
    let r := splitOnChar c xs
    if x = c then [] :: r else (x :: r.headI) :: r.tail

/-- `strings.Join(parts, sep)` for a single-character separator. -/
def joinSep (c : Char) : List (List Char) → List Char
  | [] => []
  | [x] => x
  | x :: xs => x ++ c :: joinSep c xs

/-- Go's slice expression `xs[i:]` on a slice whose capacity equals its
length (as `strings.Split` results have): defined when `i ≤ len`, a
bounds panic otherwise. -/
def goSliceFrom (xs : List (List Char)) (i : Nat) : Option (List (List Char)) :=
  if i ≤ xs.length then some (xs.drop i) else none

/-- `trimmedEndpointFromURL`: trim the leading slash, split on `/`, return
`"/"` when the split is empty, otherwise `"/" + Join(parts[2:], "/")`.
`none` is the bounds panic of `pathParts[2:]`. -/
def trimmedEndpointFromURL (urlPath : List Char) : Option (List Char) :=
  let path := trimSlash urlPath
  let pathParts := splitOnChar '/' path
  if pathParts.length = 0 then some ('/' :: [])
  else (goSliceFrom pathParts 2).map (fun rest => '/' :: joinSep '/' rest)

/-- `makeProtoHeader`: copy each header name to a `HeaderFields` holding its
value list. -/
def makeProtoHeader (h : List (List Char × List (List Char))) :
    List (List Char × HeaderFields) :=
  h.map (fun p => (p.1, { fields := p.2 }))

/-- The parts of a Go `http.Request` that `MakeProtoRequest` reads. -/
structure HttpGoRequest where
  method : List Char
  urlPath : List Char
  header : List (List Char × List (List Char))
  body : List Nat
  deriving Repr, DecidableEq

/-- `MakeProtoRequest(id, r)`: read the body, build the wire request with the
trimmed URL.  `none` propagates the bounds panic of `trimmedEndpointFromURL`;
the `EndpointID` field is not set here (it stays the zero value). -/
def makeProtoRequest (idStr : List Char) (r : HttpGoRequest) : Option HTTPRequest :=
  (trimmedEndpointFromURL r.urlPath).map (fun u =>
    { header := makeProtoHeader r.header, id := idStr, endpointID := [],
      body := r.body, method := r.method, url := u })

/-! ## Trace observation helpers -/

def isRespond : Action → Bool
  | .respond _ => true
  | _ => false

def isEmitMetric : Action → Bool
  | .emitMetric _ => true
  | _ => false

def isPoison : Action → Bool
  | .poison => true
  | _ => false

def isCachePut : Action → Bool
  | .cachePut _ => true
  | _ => false

def isLogWarn : Action → Bool
  | .logWarn _ => true
  | _ => false

/-! ## Lemmas about splitting and joining paths -/

theorem splitOnChar_ne_nil (c : Char) (l : List Char) : splitOnChar c l ≠ [] := by
  cases l with
  | nil => simp [splitOnChar]
  | cons x xs =>
    simp only [splitOnChar]
    split <;> simp

theorem joinSep_splitOnChar (c : Char) (l : List Char) :
    joinSep c (splitOnChar c l) = l := by
  induction l with
  | nil => rfl
  | cons x xs ih =>
    obtain ⟨y, ys, hr⟩ := List.exists_cons_of_ne_nil (splitOnChar_ne_nil c xs)
    rw [hr] at ih
    simp only [splitOnChar, hr]
    by_cases h : x = c
    · subst h
      simpa [joinSep] using ih
    · simp only [if_neg h, List.headI, List.tail_cons]
      cases ys with
      | nil => simpa [joinSep] using ih
      | cons z zs =>
        simp only [joinSep, List.cons_append] at ih ⊢
        rw [ih]

theorem splitOnChar_append_cons (c : Char) (a b : List Char) (h : c ∉ a) :
    splitOnChar c (a ++ c :: b) = a :: splitOnChar c b := by
  induction a with
  | nil => simp [splitOnChar]
  | cons x a' ih =>
    have hx : x ≠ c := fun hxc => h (hxc ▸ List.mem_cons_self x a')
    have h' : c ∉ a' := fun hm => h (List.mem_cons_of_mem x hm)
    simp only [List.cons_append, splitOnChar, List.append_eq, ih h', if_neg hx, List.headI,
      List.tail_cons]

theorem trimmedEndpointFromURL_live (eid g : List Char) (heid : '/' ∉ eid) :
    trimmedEndpointFromURL ('/' :: ("live".toList ++ '/' :: (eid ++ '/' :: g))) =
      some ('/' :: g) := by
  have hlive : '/' ∉ "live".toList := by decide
  unfold trimmedEndpointFromURL
  simp only [trimSlash]
  rw [splitOnChar_append_cons _ _ _ hlive, splitOnChar_append_cons _ _ _ heid]
  have h2 : 2 ≤ ("live".toList :: eid :: splitOnChar '/' g).length := by
    simp [List.length_cons]
  simp [goSliceFrom, h2, joinSep_splitOnChar]

/-- C8: for an inbound HTTP request whose URL path is
`/live/{endpoint_id}/{guest_path}`, the wire request built by
`MakeProtoRequest` has URL `"/" ++ guest_path` (the `/live/{endpoint_id}`
prefix is stripped), while method, headers and body are carried over
verbatim. -/
theorem makeProtoRequest_strips_live_head (idStr : List Char) (r : HttpGoRequest)
    (eid g : List Char)
    (hpath : r.urlPath = '/' :: ("live".toList ++ '/' :: (eid ++ '/' :: g)))
    (heid : '/' ∉ eid) :
    makeProtoRequest idStr r =
      some { header := makeProtoHeader r.header, id := idStr, endpointID := [],
             body := r.body, method := r.method, url := '/' :: g } ∧
    (makeProtoHeader r.header).map (fun p => (p.1, p.2.fields)) = r.header := by
  constructor
  · unfold makeProtoRequest
    rw [hpath, trimmedEndpointFromURL_live eid g heid]
    rfl
  · unfold makeProtoHeader
    rw [List.map_map]
    exact List.map_id r.header

/-- Witness for C8 at a concrete request: path `/live/ab/x/y` yields wire
URL `/x/y` with method, header and body copied. -/
theorem makeProtoRequest_strips_live_head_witness :
    ('/' ∉ "ab".toList) ∧
    makeProtoRequest "i".toList
        { method := "GET".toList, urlPath := "/live/ab/x/y".toList,
          header := [("H".toList, ["v".toList])], body := [1, 2] } =
      some { header := makeProtoHeader [("H".toList, ["v".toList])], id := "i".toList,
             endpointID := [], body := [1, 2], method := "GET".toList,
             url := '/' :: "x/y".toList } :=
  ⟨by decide,
   (makeProtoRequest_strips_live_head "i".toList
      { method := "GET".toList, urlPath := "/live/ab/x/y".toList,
        header := [("H".toList, ["v".toList])], body := [1, 2] }
      "ab".toList "x/y".toList (by decide) (by decide)).1⟩

/-- C10: `strings.Split` always yields at least one element, so the
`len(pathParts) == 0` guard in `trimmedEndpointFromURL` is unreachable, and
every URL whose trimmed path splits into fewer than two segments makes the
slice `pathParts[2:]` panic (modelled as `none`). -/
theorem trimmedEndpointFromURL_panic_short :
    (∀ (c : Char) (l : List Char), splitOnChar c l ≠ []) ∧
    ∀ url : List Char,
      (splitOnChar '/' (trimSlash url)).length < 2 → trimmedEndpointFromURL url = none := by
  refine ⟨splitOnChar_ne_nil, fun url h => ?_⟩
  unfold trimmedEndpointFromURL
  have h0 : (splitOnChar '/' (trimSlash url)).length ≠ 0 := by
    simpa [List.length_eq_zero] using splitOnChar_ne_nil '/' (trimSlash url)
  rw [if_neg h0]
  have h2 : ¬ 2 ≤ (splitOnChar '/' (trimSlash url)).length := by omega
  simp [goSliceFrom, h2]

/-- Witness for C10 at the concrete path `/`: one segment, and the function
hits the slice bounds panic. -/
theorem trimmedEndpointFromURL_panic_short_witness :
    (splitOnChar '/' (trimSlash ['/'])).length < 2 ∧ trimmedEndpointFromURL ['/'] = none :=
  ⟨by decide, trimmedEndpointFromURL_panic_short.2 ['/'] (by decide)⟩

/-! ## RequestModule ABI properties -/

theorem foldl_writeResponse_requestBytes (r : RequestModule) (calls : List WRCall) :
    (calls.foldl moduleWriteResponseStep r).requestBytes = r.requestBytes := by
  induction calls generalizing r with
  | nil => rfl
  | cons c cs ih => simp [List.foldl_cons, ih, moduleWriteResponseStep]

/-- C6: after any sequence of `write_response` calls whose last call reads an
in-bounds span, the response buffer holds exactly the `size` bytes of the
last call's guest memory at its offset; all earlier calls are overwritten. -/
theorem writeResponse_last_call_wins (r : RequestModule) (init : List WRCall) (c : WRCall)
    (hb : c.offset + c.size ≤ c.mem.length) :
    ((init ++ [c]).foldl moduleWriteResponseStep r).responseBytes =
        (c.mem.drop c.offset).take c.size ∧
    ((init ++ [c]).foldl moduleWriteResponseStep r).responseBytes.length = c.size := by
  have hf : (init ++ [c]).foldl moduleWriteResponseStep r =
      moduleWriteResponseStep (init.foldl moduleWriteResponseStep r) c := by
    simp [List.foldl_append]
  rw [hf]
  simp only [moduleWriteResponseStep, memRead, if_pos hb, Option.getD_some]
  refine ⟨by simp, ?_⟩
  simp only [List.length_take, List.length_drop]
  exact Nat.min_eq_left (by omega)

/-- Witness for C6: two calls; the buffer ends as the second call's bytes. -/
theorem writeResponse_last_call_wins_witness :
    (1 + 2 ≤ ([5, 6, 7, 8] : List Nat).length) ∧
    (([⟨[9, 9], 0, 2⟩, ⟨[5, 6, 7, 8], 1, 2⟩] : List WRCall).foldl moduleWriteResponseStep
        { requestBytes := [], responseBytes := [] }).responseBytes = [6, 7] :=
  ⟨by decide,
   (writeResponse_last_call_wins { requestBytes := [], responseBytes := [] }
      [⟨[9, 9], 0, 2⟩] ⟨[5, 6, 7, 8], 1, 2⟩ (by decide)).1⟩

/-- C7: the guest startup argument list is exactly one argument, the decimal
ASCII length of the marshalled wire request held in the request buffer; and a
guest that has (at least) that many bytes available at offset `o` receives
the full serialized wire request from `write_request(o)`. -/
theorem guestArgs_decimal_length (marshal : HTTPRequest → List Nat) (msg : HTTPRequest)
    (mem : List Nat) (o : Nat)
    (h : o + (marshal msg).length ≤ mem.length) :
    guestArgs (newRequestModule marshal msg) =
        [(Nat.repr (marshal msg).length).toList] ∧
    ((moduleWriteRequest (newRequestModule marshal msg) mem o).drop o).take
        (marshal msg).length = marshal msg := by
  refine ⟨rfl, ?_⟩
  show ((memWrite mem o (marshal msg)).drop o).take (marshal msg).length = marshal msg
  unfold memWrite
  rw [if_pos h]
  have hlen : (mem.take o).length = o := by
    rw [List.length_take]
    omega
  rw [List.append_assoc, List.drop_left' hlen]
  exact List.take_left' rfl

/-- Witness for C7: request bytes `[1,2,3]` written at offset 1 of a 5-byte
guest memory land intact; the startup argument is `"3"`. -/
theorem guestArgs_decimal_length_witness :
    (1 + (([1, 2, 3] : List Nat)).length ≤ ([0, 0, 0, 0, 0] : List Nat).length) ∧
    guestArgs (newRequestModule (fun m => m.body)
        { id := [], endpointID := [], method := [], url := [], header := [],
          body := [1, 2, 3] }) = [['3']] ∧
    ((moduleWriteRequest (newRequestModule (fun m => m.body)
        { id := [], endpointID := [], method := [], url := [], header := [],
          body := [1, 2, 3] }) [0, 0, 0, 0, 0] 1).drop 1).take 3 = [1, 2, 3] := by
  have h := guestArgs_decimal_length (fun m => m.body)
    { id := [], endpointID := [], method := [], url := [], header := [], body := [1, 2, 3] }
    [0, 0, 0, 0, 0] 1 (by decide)
  exact ⟨by decide, h.1, h.2⟩

/-! ## Concrete fixtures shared by the Receive theorems -/

def zeroUUIDStr : List Char := "00000000-0000-0000-0000-000000000000".toList

def zeroUUID : UUID := List.replicate 16 0

def sampleMsg : HTTPRequest :=
  { id := "req1".toList, endpointID := zeroUUIDStr, method := "GET".toList,
    url := "/x".toList, header := [], body := [1, 2, 3] }

def sampleEndpoint : Endpoint := { id := [1], activeDeployID := [2], environment := [] }

def sampleDeploy : Deploy := { id := [2], endpointID := [1], blob := [0] }

def sampleStoreOK : Store :=
  { getEndpoint := fun _ => .ok sampleEndpoint, getDeploy := fun _ => .ok sampleDeploy }

def sampleStoreNoEndpoint : Store :=
  { getEndpoint := fun _ => .error "endpoint not found".toList,
    getDeploy := fun _ => .error [] }

def sampleEnv (eb : ExecBehavior) : ExecEnv :=
  { marshal := fun m => m.body, execB := eb, cacheHit := true, metricStoreFails := false,
    metricID := [7], started := 0, now := 5 }

/-! ## Receive: panic on malformed endpoint id -/

/-- C9: a wire request whose endpoint-id is not a valid UUID string makes the
handler panic via `uuid.MustParse` — the trace is exactly the panic; the
handler neither returns after a log, nor responds, nor emits a metric. -/
theorem receive_panics_on_bad_uuid (env : ExecEnv) (store : Store) (msg : HTTPRequest)
    (h : uuidParse msg.endpointID = none) :
    receive env store msg = ([Action.panicked], none) := by
  unfold receive
  rw [h]

/-- Witness for C9 at endpoint-id `"notauuid"`. -/
theorem receive_panics_on_bad_uuid_witness :
    uuidParse ("notauuid".toList) = none ∧
    receive (sampleEnv (.run [] false)) sampleStoreOK
        { sampleMsg with endpointID := "notauuid".toList } = ([Action.panicked], none) :=
  ⟨by decide,
   receive_panics_on_bad_uuid (sampleEnv (.run [] false)) sampleStoreOK
     { sampleMsg with endpointID := "notauuid".toList } (by decide)⟩

/-! ## Receive: the success path -/

/-- Unfolding of `Receive` when the endpoint id parses and both store lookups
succeed: the full trace and the final request-module state. -/
theorem receive_ok (env : ExecEnv) (store : Store) (msg : HTTPRequest)
    (eid : UUID) (endpoint : Endpoint) (deploy : Deploy)
    (hu : uuidParse msg.endpointID = some eid)
    (he : store.getEndpoint eid = .ok endpoint)
    (hd : store.getDeploy endpoint.activeDeployID = .ok deploy) :
    receive env store msg =
      ((if env.cacheHit then [] else [.logWarn .noCacheHit]) ++
        ((runExec env.execB (newRequestModule env.marshal msg)).2.map .logWarn) ++
        [.respond { response := (runExec env.execB (newRequestModule env.marshal msg)).1.responseBytes,
                    requestID := msg.id, statusCode := 200 },
         .poison,
         .emitMetric { id := env.metricID, startTime := env.started,
                       duration := env.now - env.started, deployID := deploy.id,
                       endpointID := deploy.endpointID, requestURL := msg.url }] ++
        (if env.metricStoreFails then [.logWarn .metricCreateFailed] else []) ++
        [.cachePut endpoint.id],
       some (runExec env.execB (newRequestModule env.marshal msg)).1) := by
  unfold receive
  simp only [hu, he, hd]

theorem countP_map_logWarn (p : Action → Bool) (l : List WarnKind)
    (hp : ∀ k, p (Action.logWarn k) = false) : (l.map Action.logWarn).countP p = 0 := by
  induction l with
  | nil => rfl
  | cons k ks ih => simp [List.countP_cons, hp, ih]

theorem filter_not_logWarn_map (l : List WarnKind) :
    (l.map Action.logWarn).filter (fun a => !isLogWarn a) = [] := by
  induction l with
  | nil => rfl
  | cons k ks ih => simp [List.filter_cons, isLogWarn, ih]

/-- On the success path the handler responds exactly once and emits exactly
one metric, whatever the guest does and whether or not the metric store or
the module cache misbehave. -/
theorem receive_ok_counts (env : ExecEnv) (store : Store) (msg : HTTPRequest)
    (eid : UUID) (endpoint : Endpoint) (deploy : Deploy)
    (hu : uuidParse msg.endpointID = some eid)
    (he : store.getEndpoint eid = .ok endpoint)
    (hd : store.getDeploy endpoint.activeDeployID = .ok deploy) :
    (receive env store msg).1.countP isRespond = 1 ∧
    (receive env store msg).1.countP isEmitMetric = 1 := by
  rw [receive_ok env store msg eid endpoint deploy hu he hd]
  have h1 : ∀ k, isRespond (Action.logWarn k) = false := fun _ => rfl
  have h2 : ∀ k, isEmitMetric (Action.logWarn k) = false := fun _ => rfl
  cases hc : env.cacheHit <;> cases hm : env.metricStoreFails <;>
    simp [hc, hm, List.countP_append, List.countP_cons, countP_map_logWarn _ _ h1,
      countP_map_logWarn _ _ h2, isRespond, isEmitMetric]

/-- C1 counterexample: with a store whose endpoint lookup fails, the handler
logs a warning and returns — no response is sent and no metric is emitted,
refuting the claim for the metadata-store-failure case. -/
theorem receive_no_response_on_store_failure :
    receive (sampleEnv (.run [] false)) sampleStoreNoEndpoint sampleMsg =
      ([Action.logWarn .endpointNotFound], none) ∧
    (receive (sampleEnv (.run [] false)) sampleStoreNoEndpoint sampleMsg).1.countP
      isRespond = 0 ∧
    (receive (sampleEnv (.run [] false)) sampleStoreNoEndpoint sampleMsg).1.countP
      isEmitMetric = 0 := by
  decide

/-- C1 (amended): when the endpoint id parses and the endpoint and its active
deployment both resolve, the handler responds exactly once and emits exactly
one metric — exec failures and metric-store failures are logged and prevent
neither; but when a metadata-store lookup fails, the handler logs a warning
and returns with no response and no metric. -/
theorem receive_responds_and_metric (env : ExecEnv) (store : Store) (msg : HTTPRequest)
    (eid : UUID) (hu : uuidParse msg.endpointID = some eid) :
    (∀ endpoint deploy, store.getEndpoint eid = .ok endpoint →
        store.getDeploy endpoint.activeDeployID = .ok deploy →
        (receive env store msg).1.countP isRespond = 1 ∧
        (receive env store msg).1.countP isEmitMetric = 1) ∧
    (∀ e, store.getEndpoint eid = .error e →
        (receive env store msg).1 = [.logWarn .endpointNotFound]) ∧
    (∀ endpoint e, store.getEndpoint eid = .ok endpoint →
        store.getDeploy endpoint.activeDeployID = .error e →
        (receive env store msg).1 = [.logWarn .deployNotFound]) := by
  refine ⟨fun endpoint deploy he hd => receive_ok_counts env store msg eid endpoint deploy hu he hd,
    fun e he => ?_, fun endpoint e he hd => ?_⟩
  · unfold receive
    simp only [hu, he]
  · unfold receive
    simp only [hu, he, hd]

/-- Witness for the amended C1: with a failing compile the worker still
responds once and emits one metric. -/
theorem receive_responds_and_metric_witness :
    uuidParse sampleMsg.endpointID = some zeroUUID ∧
    sampleStoreOK.getEndpoint zeroUUID = .ok sampleEndpoint ∧
    sampleStoreOK.getDeploy sampleEndpoint.activeDeployID = .ok sampleDeploy ∧
    ((receive (sampleEnv .compileFailed) sampleStoreOK sampleMsg).1.countP isRespond = 1 ∧
     (receive (sampleEnv .compileFailed) sampleStoreOK sampleMsg).1.countP isEmitMetric = 1) :=
  ⟨by decide, rfl, rfl,
   (receive_responds_and_metric (sampleEnv .compileFailed) sampleStoreOK sampleMsg zeroUUID
      (by decide)).1 sampleEndpoint sampleDeploy rfl rfl⟩

/-- C2: on the success path the handler responds exactly once, with status
200, the incoming wire request's id, and the request module's response buffer
as body — which is empty when compilation failed, when WASI instantiation
failed, or when the guest made no `write_response` call. -/
theorem receive_response_is_buffer (env : ExecEnv) (store : Store) (msg : HTTPRequest)
    (eid : UUID) (endpoint : Endpoint) (deploy : Deploy)
    (hu : uuidParse msg.endpointID = some eid)
    (he : store.getEndpoint eid = .ok endpoint)
    (hd : store.getDeploy endpoint.activeDeployID = .ok deploy) :
    Action.respond
        { response := (runExec env.execB (newRequestModule env.marshal msg)).1.responseBytes,
          requestID := msg.id, statusCode := 200 } ∈ (receive env store msg).1 ∧
    (receive env store msg).1.countP isRespond = 1 ∧
    ((env.execB = .compileFailed ∨ env.execB = .wasiInstantiateFailed ∨
        (∃ t, env.execB = .run [] t)) →
      (runExec env.execB (newRequestModule env.marshal msg)).1.responseBytes = []) := by
  refine ⟨?_, (receive_ok_counts env store msg eid endpoint deploy hu he hd).1, ?_⟩
  · rw [receive_ok env store msg eid endpoint deploy hu he hd]
    simp
  · rintro (h | h | ⟨t, h⟩) <;> rw [h] <;> rfl

/-- Witness for C2: a compile failure still yields a 200 with empty body and
the request's id. -/
theorem receive_response_is_buffer_witness :
    uuidParse sampleMsg.endpointID = some zeroUUID ∧
    (Action.respond
        { response := (runExec (sampleEnv .compileFailed).execB
            (newRequestModule (sampleEnv .compileFailed).marshal sampleMsg)).1.responseBytes,
          requestID := sampleMsg.id, statusCode := 200 } ∈
        (receive (sampleEnv .compileFailed) sampleStoreOK sampleMsg).1 ∧
     (receive (sampleEnv .compileFailed) sampleStoreOK sampleMsg).1.countP isRespond = 1 ∧
     (((sampleEnv .compileFailed).execB = .compileFailed ∨
        (sampleEnv .compileFailed).execB = .wasiInstantiateFailed ∨
        (∃ t, (sampleEnv .compileFailed).execB = .run [] t)) →
       (runExec (sampleEnv .compileFailed).execB
          (newRequestModule (sampleEnv .compileFailed).marshal sampleMsg)).1.responseBytes = [])) :=
  ⟨by decide,
   receive_response_is_buffer (sampleEnv .compileFailed) sampleStoreOK sampleMsg zeroUUID
     sampleEndpoint sampleDeploy (by decide) rfl rfl⟩

/-- C3: the metric emitted on the success path carries the resolved active
deployment's id, that deployment's parent endpoint id, the wire request's
URL, and the fresh metric id, start time, and duration now − start. -/
theorem receive_metric_fields (env : ExecEnv) (store : Store) (msg : HTTPRequest)
    (eid : UUID) (endpoint : Endpoint) (deploy : Deploy)
    (hu : uuidParse msg.endpointID = some eid)
    (he : store.getEndpoint eid = .ok endpoint)
    (hd : store.getDeploy endpoint.activeDeployID = .ok deploy) :
    Action.emitMetric
        { id := env.metricID, startTime := env.started, duration := env.now - env.started,
          deployID := deploy.id, endpointID := deploy.endpointID,
          requestURL := msg.url } ∈ (receive env store msg).1 ∧
    (receive env store msg).1.countP isEmitMetric = 1 := by
  refine ⟨?_, (receive_ok_counts env store msg eid endpoint deploy hu he hd).2⟩
  rw [receive_ok env store msg eid endpoint deploy hu he hd]
  simp

/-- Witness for C3 at the sample fixtures. -/
theorem receive_metric_fields_witness :
    uuidParse sampleMsg.endpointID = some zeroUUID ∧
    (Action.emitMetric
        { id := [7], startTime := 0, duration := 5, deployID := sampleDeploy.id,
          endpointID := sampleDeploy.endpointID, requestURL := sampleMsg.url } ∈
        (receive (sampleEnv (.run [] false)) sampleStoreOK sampleMsg).1 ∧
     (receive (sampleEnv (.run [] false)) sampleStoreOK sampleMsg).1.countP isEmitMetric = 1) :=
  ⟨by decide,
   receive_metric_fields (sampleEnv (.run [] false)) sampleStoreOK sampleMsg zeroUUID
     sampleEndpoint sampleDeploy (by decide) rfl rfl⟩

/-- C4 counterexample: at a concrete request whose guest wrote `[79, 75]`,
the handler finishes with the request-module buffers NOT cleared — the
request buffer still holds the marshalled request and the response buffer the
guest's bytes — because `Receive` never calls `RequestModule.Close`. -/
theorem receive_buffers_not_cleared :
    (receive (sampleEnv (.run [⟨[79, 75], 0, 2⟩] false)) sampleStoreOK sampleMsg).2 =
      some { requestBytes := [1, 2, 3], responseBytes := [79, 75] } ∧
    ¬ ((receive (sampleEnv (.run [⟨[79, 75], 0, 2⟩] false)) sampleStoreOK sampleMsg).2 =
        some { requestBytes := [], responseBytes := [] }) := by
  decide

/-- C4 (amended): `RequestModule.Close` does reset both buffers to empty, but
the worker's handling of a wire request never invokes it — on the success
path the handler ends with the module exactly in its post-execution state:
the request buffer still holds the marshalled wire request and the response
buffer whatever the guest last wrote. -/
theorem close_clears_but_receive_never_closes (env : ExecEnv) (store : Store)
    (msg : HTTPRequest) (eid : UUID) (endpoint : Endpoint) (deploy : Deploy)
    (r : RequestModule)
    (hu : uuidParse msg.endpointID = some eid)
    (he : store.getEndpoint eid = .ok endpoint)
    (hd : store.getDeploy endpoint.activeDeployID = .ok deploy) :
    (closeRequestModule r).requestBytes = [] ∧
    (closeRequestModule r).responseBytes = [] ∧
    (receive env store msg).2 =
      some (runExec env.execB (newRequestModule env.marshal msg)).1 ∧
    (runExec env.execB (newRequestModule env.marshal msg)).1.requestBytes =
      env.marshal msg := by
  refine ⟨rfl, rfl, ?_, ?_⟩
  · rw [receive_ok env store msg eid endpoint deploy hu he hd]
  · cases henv : env.execB with
    | compileFailed => rfl
    | wasiInstantiateFailed => rfl
    | run calls trapped =>
        simp [runExec, foldl_writeResponse_requestBytes, newRequestModule]

/-- Witness for the amended C4 at the sample fixtures. -/
theorem close_clears_but_receive_never_closes_witness :
    uuidParse sampleMsg.endpointID = some zeroUUID ∧
    ((closeRequestModule { requestBytes := [9], responseBytes := [8] }).requestBytes = [] ∧
     (closeRequestModule { requestBytes := [9], responseBytes := [8] }).responseBytes = [] ∧
     (receive (sampleEnv (.run [⟨[79, 75], 0, 2⟩] false)) sampleStoreOK sampleMsg).2 =
       some (runExec (sampleEnv (.run [⟨[79, 75], 0, 2⟩] false)).execB
         (newRequestModule (sampleEnv (.run [⟨[79, 75], 0, 2⟩] false)).marshal sampleMsg)).1 ∧
     (runExec (sampleEnv (.run [⟨[79, 75], 0, 2⟩] false)).execB
        (newRequestModule (sampleEnv (.run [⟨[79, 75], 0, 2⟩] false)).marshal sampleMsg)).1.requestBytes =
       (sampleEnv (.run [⟨[79, 75], 0, 2⟩] false)).marshal sampleMsg) :=
  ⟨by decide,
   close_clears_but_receive_never_closes (sampleEnv (.run [⟨[79, 75], 0, 2⟩] false))
     sampleStoreOK sampleMsg zeroUUID sampleEndpoint sampleDeploy
     { requestBytes := [9], responseBytes := [8] } (by decide) rfl rfl⟩

/-- C5 counterexample: at a concrete request the poison (self-termination
request) appears in the handler's trace strictly before the metric emission,
and the final action is the cache write-back, not the self-termination —
refuting "self-termination is the final step". -/
theorem receive_poison_before_metric :
    ((receive (sampleEnv (.run [] false)) sampleStoreOK sampleMsg).1.findIdx isPoison <
      (receive (sampleEnv (.run [] false)) sampleStoreOK sampleMsg).1.findIdx isEmitMetric) ∧
    (receive (sampleEnv (.run [] false)) sampleStoreOK sampleMsg).1.getLast? =
      some (Action.cachePut sampleEndpoint.id) := by
  decide

/-- C5 (amended): on the success path the handler's non-log actions occur in
the order: respond, poison (the self-termination request), metric emission,
and finally the cache write-back — the metric and the cache write happen
after the self-termination request, and the cache write is the final step. -/
theorem receive_action_order (env : ExecEnv) (store : Store) (msg : HTTPRequest)
    (eid : UUID) (endpoint : Endpoint) (deploy : Deploy)
    (hu : uuidParse msg.endpointID = some eid)
    (he : store.getEndpoint eid = .ok endpoint)
    (hd : store.getDeploy endpoint.activeDeployID = .ok deploy) :
    (receive env store msg).1.filter (fun a => !isLogWarn a) =
      [Action.respond
         { response := (runExec env.execB (newRequestModule env.marshal msg)).1.responseBytes,
           requestID := msg.id, statusCode := 200 },
       Action.poison,
       Action.emitMetric
         { id := env.metricID, startTime := env.started, duration := env.now - env.started,
           deployID := deploy.id, endpointID := deploy.endpointID, requestURL := msg.url },
       Action.cachePut endpoint.id] := by
  rw [receive_ok env store msg eid endpoint deploy hu he hd]
  cases hc : env.cacheHit <;> cases hm : env.metricStoreFails <;>
    simp [hc, hm, List.filter_append, filter_not_logWarn_map, List.filter_cons, isLogWarn]

/-- Witness for the amended C5 at the sample fixtures. -/
theorem receive_action_order_witness :
    uuidParse sampleMsg.endpointID = some zeroUUID ∧
    (receive (sampleEnv (.run [] false)) sampleStoreOK sampleMsg).1.filter
        (fun a => !isLogWarn a) =
      [Action.respond { response := [], requestID := sampleMsg.id, statusCode := 200 },
       Action.poison,
       Action.emitMetric
         { id := [7], startTime := 0, duration := 5, deployID := sampleDeploy.id,
           endpointID := sampleDeploy.endpointID, requestURL := sampleMsg.url },
       Action.cachePut sampleEndpoint.id] :=
  ⟨by decide,
   receive_action_order (sampleEnv (.run [] false)) sampleStoreOK sampleMsg zeroUUID
     sampleEndpoint sampleDeploy (by decide) rfl rfl⟩

end FFaas
